/-
Verification of the runner-cloudflared-tunnel orchestrator.

Shallow embedding of the JavaScript sources:
  * src/utils/retry.js        (function retry)
  * src/core/cloudflare-client.js (CloudflareClient)
  * the TunnelManager variant shipping buildServiceUrl / inferProtocol /
    createCredentialsFile / generateConfigFile / setupDnsRecord /
    verifyTunnels

JavaScript-specific semantics (truthiness, `||`, parseInt, String.includes,
split/slice/join) are modelled explicitly.  Randomness (tunnel secrets),
provider-assigned ids and file reads are threaded through explicit state /
environment records.
-/
import Mathlib

set_option autoImplicit false

namespace RCT

/-! ## JavaScript primitive semantics -/

/-- ASCII lower-casing of a character, as `String.prototype.toLowerCase`
acts on the ASCII range (the only range this program feeds it). -/
def asciiLower (c : Char) : Char :=
  if 'A' ≤ c ∧ c ≤ 'Z' then Char.ofNat (c.toNat + 32) else c

/-- `s.toLowerCase()` on ASCII strings. -/
def jsToLower (s : String) : String :=
  String.mk (s.toList.map asciiLower)

/-- JavaScript whitespace characters relevant to `String.prototype.trim`. -/
def jsIsWs (c : Char) : Bool :=
  c = ' ' ∨ c = '\t' ∨ c = '\n' ∨ c = '\r'

/-- `s.trim()`. -/
def jsTrim (s : String) : String :=
  String.mk (((s.toList.dropWhile jsIsWs).reverse.dropWhile jsIsWs).reverse)

/-- Does `needle` occur as a contiguous sublist of the haystack? -/
def isInfixOfL (needle : List Char) : List Char → Bool
  | [] => needle.isEmpty
  | c :: cs => needle.isPrefixOf (c :: cs) || isInfixOfL needle cs

/-- `s.includes(sub)`. -/
def jsIncludes (s sub : String) : Bool :=
  isInfixOfL sub.toList s.toList

/-- Longest decimal-digit prefix of a character list, as a number. -/
def digitsPrefix (cs : List Char) : Option Nat :=
  let ds := cs.takeWhile Char.isDigit
  if ds.isEmpty then none
  else some (ds.foldl (fun acc ch => acc * 10 + (ch.toNat - '0'.toNat)) 0)

/-- `parseInt(s, 10)`: skip leading whitespace, optional sign, longest
digit prefix; `NaN` (here `none`) when no digit follows. -/
def jsParseInt (s : String) : Option Int :=
  let cs := s.toList.dropWhile jsIsWs
  match cs with
  | '-' :: rest => (digitsPrefix rest).map (fun n => -(n : Int))
  | '+' :: rest => (digitsPrefix rest).map (fun n => (n : Int))
  | _ => (digitsPrefix cs).map (fun n => (n : Int))

/-- JavaScript truthiness of a nullable string value
(`null`/`undefined` and `""` are falsy). -/
def truthy : Option String → Bool
  | none => false
  | some s => s ≠ ""

/-- JavaScript `a || b` on a nullable string `a` with string fallback `b`. -/
def jsOr (a : Option String) (b : String) : String :=
  if truthy a then a.getD "" else b

/-- Split a character list at a separator; `splitChar sep` agrees with
`String.prototype.split` on the one-character separator `sep`
(`"" → [""]`, a trailing separator yields a trailing `""`). -/
def splitChar (sep : Char) : List Char → List (List Char)
  | [] => [[]]
  | c :: cs =>
    if c = sep then [] :: splitChar sep cs
    else
      match splitChar sep cs with
      | [] => [[c]]
      | h :: t => (c :: h) :: t

/-- `s.split(sep)` for a one-character separator. -/
def jsSplit (s : String) (sep : Char) : List String :=
  (splitChar sep s.toList).map String.mk

/-- `domain.split('.').slice(-2).join('.')`. -/
def lastTwoLabels (s : String) : String :=
  let parts := jsSplit s '.'
  String.intercalate "." (parts.drop (parts.length - 2))

/-- `content.split("\n").slice(-n).join("\n")`. -/
def lastLines (n : Nat) (s : String) : String :=
  let ls := jsSplit s '\n'
  String.intercalate "\n" (ls.drop (ls.length - n))

/-! ## src/utils/retry.js : `retry`

The operation is modelled as a map from the (1-based) attempt index to the
outcome of that invocation.  The returned value is paired with the trace of
observable events (invocations, `onRetry` callbacks, sleeps).  A thrown
JavaScript value is `Option ε`: `none` is `undefined` (the uninitialised
`lastError`), `some e` a real error. -/

inductive REvent (ε : Type) where
  | call (attempt : Nat)
  | onRetryEv (e : ε) (attempt : Nat) (waitTime : Nat)
  | sleepEv (waitTime : Nat)
  deriving DecidableEq, Repr

structure RetryOpts where
  maxAttempts : Int := 3
  delay : Nat := 1000
  backoff : Nat := 2
  deriving Repr

/-- One pass of the `for (attempt = 1; attempt <= maxAttempts; ...)` loop
body; `fuel` counts the remaining iterations (`maxAttempts - attempt + 1`). -/
def retryGo {ε α : Type} (opts : RetryOpts) (fn : Nat → Except ε α)
    (lastError : Option ε) : Nat → Nat → Except (Option ε) α × List (REvent ε)
  | _, 0 => (.error lastError, [])
  | attempt, fuel + 1 =>
    match fn attempt with
    | .ok a => (.ok a, [.call attempt])
    | .error e =>
      if (attempt : Int) = opts.maxAttempts then
        (.error (some e), [.call attempt])
      else
        let waitTime := opts.delay * opts.backoff ^ (attempt - 1)
        let rest := retryGo opts fn (some e) (attempt + 1) fuel
        (rest.1, .call attempt :: .onRetryEv e attempt waitTime ::
          .sleepEv waitTime :: rest.2)

/-- `retry(fn, {maxAttempts, delay, backoff, onRetry})`. -/
def retry {ε α : Type} (fn : Nat → Except ε α) (opts : RetryOpts) :
    Except (Option ε) α × List (REvent ε) :=
  retryGo opts fn none 1 opts.maxAttempts.toNat

/-! ## src/core/cloudflare-client.js : `CloudflareClient`

The remote provider is a state record: the tunnel list, the zone list, the
DNS-record lists, the id the provider will assign to the next created
tunnel (a counter rendered as a string), and the entropy stream feeding
`generateTunnelSecret` (head = next `crypto.randomBytes(32).toString('base64')`
value). -/

structure Tunnel where
  id : String
  name : String
  deriving DecidableEq, Repr

/-- Result shape of `getOrCreateTunnel` / `createTunnel`:
`{ ...tunnel, tunnelSecret }` where `tunnelSecret` is `null` (`none`) for a
found tunnel and the fresh base64 secret for a created one. -/
structure TunnelInfo where
  id : String
  name : String
  tunnelSecret : Option String
  deriving DecidableEq, Repr

structure Zone where
  id : String
  name : String
  deriving DecidableEq, Repr

structure DnsRecord where
  type : String
  name : String
  content : String
  proxied : Bool
  ttl : Nat
  deriving DecidableEq, Repr

structure CfState where
  tunnels : List Tunnel
  zones : List Zone
  /-- records per zone id -/
  records : String → List DnsRecord
  nextId : Nat
  entropy : List String

/-- Client configuration fields consulted by the embedded methods.
`zoneId` / `zoneName` are nullable strings tested for JS truthiness. -/
structure CfConfig where
  accountId : String
  zoneId : Option String := none
  zoneName : Option String := none

/-- `getTunnelByName`: `tunnels.find(t => t.name === name) || null`. -/
def getTunnelByName (st : CfState) (name : String) : Option Tunnel :=
  st.tunnels.find? (fun t => t.name = name)

/-- `createTunnel`: generates a fresh secret, POSTs, and returns
`{ ...response.result, tunnelSecret }`.  The provider assigns the id and
adds the tunnel to its list. -/
def createTunnel (st : CfState) (name : String) : TunnelInfo × CfState :=
  let tunnelSecret := st.entropy.headD ""
  let id := toString st.nextId
  (⟨id, name, some tunnelSecret⟩,
   { st with
      tunnels := st.tunnels ++ [⟨id, name⟩]
      nextId := st.nextId + 1
      entropy := st.entropy.tail })

/-- `getOrCreateTunnel`: find first; if present return
`{ ...tunnel, tunnelSecret: null }` without touching the provider,
else create. -/
def getOrCreateTunnel (st : CfState) (name : String) : TunnelInfo × CfState :=
  match getTunnelByName st name with
  | some tunnel => (⟨tunnel.id, tunnel.name, none⟩, st)
  | none => createTunnel st name

/-- `getZoneIdByDomain`.  The second component records whether the
provider's `/zones` endpoint was consulted (the configured-`zoneId` branch
returns before the GET). -/
def getZoneIdByDomain (cfg : CfConfig) (st : CfState) (domain : String) :
    Option String × Bool :=
  if truthy cfg.zoneId then (some (cfg.zoneId.getD ""), false)
  else
    let zones := st.zones
    if truthy cfg.zoneName then
      ((zones.find? (fun z => z.name = cfg.zoneName.getD "")).map Zone.id, true)
    else
      let rootDomain := lastTwoLabels domain
      ((zones.find? (fun z => z.name = rootDomain)).map Zone.id, true)

/-- `CloudflareApiError(message, statusCode)`. -/
structure CfApiError where
  message : String
  statusCode : Nat
  deriving DecidableEq, Repr

/-- `getDnsRecordByName`: `records.find(r => r.name === name) || null`. -/
def getDnsRecordByName (st : CfState) (zoneId name : String) : Option DnsRecord :=
  (st.records zoneId).find? (fun r => r.name = name)

/-- `getOrCreateDnsRecord(hostname, tunnelId)`: derive the domain from the
last two labels of the hostname, resolve the zone (absent → throw a 404
`CloudflareApiError`), reuse an existing record by exact name, else create
a proxied CNAME to `<tunnelId>.cfargotunnel.com`. -/
def getOrCreateDnsRecord (cfg : CfConfig) (st : CfState)
    (hostname tunnelId : String) : Except CfApiError DnsRecord :=
  match (getZoneIdByDomain cfg st (lastTwoLabels hostname)).1 with
  | none => .error ⟨s!"Zone not found for domain: {lastTwoLabels hostname}", 404⟩
  | some zoneId =>
    match getDnsRecordByName st zoneId hostname with
    | some existingRecord => .ok existingRecord
    | none => .ok ⟨"CNAME", hostname, s!"{tunnelId}.cfargotunnel.com", true, 1⟩

/-! ## TunnelManager : service URLs and ingress config -/

/-- One desired service (an element of `plan.services`); `protocol` is the
optional explicit protocol field. -/
structure Service where
  name : String
  hostname : String
  ip : String
  port : String
  protocol : Option String := none
  deriving DecidableEq, Repr

/-- Remove every (left-to-right, non-overlapping) occurrence of `"://"`,
as `replace(/:\/\//g, "")` does. -/
def stripSchemeSep : List Char → List Char
  | ':' :: '/' :: '/' :: rest => stripSchemeSep rest
  | c :: cs => c :: stripSchemeSep cs
  | [] => []

/-- `normalizeProtocol`: falsy → `""`; else trim, lower-case, strip every
`"://"` occurrence. -/
def normalizeProtocol (protocol : Option String) : String :=
  if ¬ truthy protocol then ""
  else String.mk (stripSchemeSep (jsToLower (jsTrim (protocol.getD ""))).toList)

/-- The fixed allow-list of common HTTP dev ports in `inferProtocol`. -/
def httpPorts : List Int := [80, 3000, 3001, 3002, 3003, 4200, 5000, 5173, 8080, 8081]

/-- The fixed allow-list of common database/cache ports in `inferProtocol`. -/
def tcpPorts : List Int := [1433, 1521, 27017, 3306, 5432, 6379]

/-- `inferProtocol`: infer the scheme from the port and the service name. -/
def inferProtocol (tunnel : Service) : String :=
  let portNum := jsParseInt tunnel.port
  let name := jsToLower tunnel.name
  if portNum = some 22 ∨ portNum = some 2222 ∨ jsIncludes name "ssh" then "ssh"
  else if portNum = some 443 then "https"
  else if portNum.any (fun p => p ∈ httpPorts) then "http"
  else if portNum.any (fun p => p ∈ tcpPorts) then "tcp"
  else "tcp"

/-- `buildServiceUrl`: explicit (normalized) protocol if truthy, else the
inferred one. -/
def buildServiceUrl (tunnel : Service) : String :=
  let normalizedProtocol := normalizeProtocol tunnel.protocol
  let protocol := if normalizedProtocol ≠ "" then normalizedProtocol else inferProtocol tunnel
  s!"{protocol}://{tunnel.ip}:{tunnel.port}"

/-- One entry of the generated `ingress` list: an optional `hostname` key
and a `service` key. -/
structure IngressRule where
  hostname : Option String
  service : String
  deriving DecidableEq, Repr

/-- The per-service ingress rule pushed by `generateConfigFile`. -/
def serviceRule (tunnel : Service) : IngressRule :=
  ⟨some tunnel.hostname, buildServiceUrl tunnel⟩

/-- The trailing rule pushed by `generateConfigFile`. -/
def catchAllRule : IngressRule := ⟨none, "http_status:404"⟩

/-- The `ingress` list built by `generateConfigFile`: start from `[]`,
push one rule per service in order, then push the catch-all. -/
def mkIngress (services : List Service) : List IngressRule :=
  (services.foldl (fun acc tunnel => acc ++ [serviceRule tunnel]) []) ++ [catchAllRule]

/-! ## TunnelManager : credentials file -/

/-- The JSON object written by `createCredentialsFile`, as its ordered
key/value list: `{AccountTag, TunnelSecret: tunnelInfo.tunnelSecret || token,
TunnelID}`. -/
def credentialsObject (cfg : CfConfig) (tunnelInfo : TunnelInfo) (token : String) :
    List (String × String) :=
  [("AccountTag", cfg.accountId),
   ("TunnelSecret", jsOr tunnelInfo.tunnelSecret token),
   ("TunnelID", tunnelInfo.id)]

/-! ## TunnelManager : DNS phase of the orchestrated workflow -/

/-- Observable workflow events of `processTunnel`/`execute`. -/
inductive WEvent where
  | infoW (s : String)
  | warnW (s : String)
  | successW (s : String)
  | configGenerated
  | daemonStarted
  deriving DecidableEq, Repr

/-- JavaScript `try { ... } catch (e) { handler }` on an expression whose
evaluation may throw. -/
def jsTry {ε α : Type} (x : Except ε α) (handler : ε → α) : α :=
  match x with
  | .ok a => a
  | .error e => handler e

/-- `setupDnsRecord(hostname, tunnelId)`: the `getOrCreateDnsRecord` call
sits inside a `try`; its outcome is the argument `res`.  Every error is
handled by two warnings. -/
def setupDnsRecord (hostname : String) (res : Except CfApiError DnsRecord) :
    List WEvent :=
  WEvent.infoW s!"Setting up DNS record for {hostname}..." ::
    jsTry (res.map fun _ => [WEvent.successW s!"DNS record configured for {hostname}"])
      (fun error =>
        [WEvent.warnW s!"Failed to setup DNS record: {error.message}",
         WEvent.warnW "You may need to manually configure DNS records in Cloudflare dashboard"])

/-- Sequencing of workflow steps: the run aborts at the first step that
throws, later steps never happen. -/
def runSteps : List (Except CfApiError (List WEvent)) → Except CfApiError (List WEvent)
  | [] => .ok []
  | s :: rest =>
    match s with
    | .error e => .error e
    | .ok evs => (runSteps rest).map (fun evs2 => evs ++ evs2)

/-- The `for (const service of plan.services)` loop of `processTunnel`:
one `setupDnsRecord` call per service, in order; `dns i` is the outcome of
the `getOrCreateDnsRecord` call for the i-th remaining service. -/
def dnsLoop : List Service → (Nat → Except CfApiError DnsRecord) → List WEvent
  | [], _ => []
  | s :: rest, dns =>
    setupDnsRecord s.hostname (dns 0) ++ dnsLoop rest (fun i => dns (i + 1))

/-- The tail of `execute` from the DNS loop on: the DNS loop (infallible,
because each `setupDnsRecord` catches internally), then config generation,
then the daemon launch. -/
def executeFromDns (services : List Service)
    (dns : Nat → Except CfApiError DnsRecord) : Except CfApiError (List WEvent) :=
  runSteps
    [.ok (dnsLoop services dns), .ok [WEvent.configGenerated], .ok [WEvent.daemonStarted]]

/-! ## TunnelManager : `verifyTunnels` -/

/-- `ProcessError(message, exitCode, logs)`. -/
structure PError where
  message : String
  code : Nat
  logs : String
  deriving DecidableEq, Repr

/-- Observable events of the verification loop. -/
inductive VEvent where
  | infoV (s : String)
  | warnV (s : String)
  | errorV (s : String)
  | successV (s : String)
  | sleepV (ms : Nat)
  /-- an `isProcessRunning` signal-probe with the parsed pid -/
  | probe (pid : Option Int)
  deriving DecidableEq, Repr

/-- What the filesystem / OS answer at each attempt: the PID-file content,
process liveness, and the log-file content. -/
structure VerifyEnv where
  pidContent : Nat → Option String
  alive : Nat → Bool
  logContent : Nat → Option String

structure VerifyCfg where
  /-- `config.verifyRetries` with `0` for an unset/falsy value -/
  verifyRetries : Nat := 0
  /-- `config.verifyDelay` with `0` for an unset/falsy value -/
  verifyDelay : Nat := 0
  /-- `config.timeout` with `0` for an unset/falsy value -/
  timeout : Nat := 0
  deriving Repr

/-- `Math.max(1, config.verifyRetries || 1)`. -/
def vRetries (cfg : VerifyCfg) : Nat :=
  max 1 (if cfg.verifyRetries = 0 then 1 else cfg.verifyRetries)

/-- `config.verifyDelay || 3000`. -/
def vDelay (cfg : VerifyCfg) : Nat :=
  if cfg.verifyDelay = 0 then 3000 else cfg.verifyDelay

/-- `config.timeout || 5000`. -/
def vTimeout (cfg : VerifyCfg) : Nat :=
  if cfg.timeout = 0 then 5000 else cfg.timeout

/-- Rendering of the parsed pid in log messages (`NaN` when parsing failed). -/
def renderPid : Option Int → String
  | some n => toString n
  | none => "NaN"

/-- The log-tail inspection of an attempt, lines 474–483: the
error-marker test runs first, the success-marker test second. -/
inductive MarkerOutcome where
  | errorMarker
  | successMarker
  | noMarker
  deriving DecidableEq, Repr

def inspectLogMarkers (logContent : String) : MarkerOutcome :=
  if jsIncludes logContent "error" || jsIncludes logContent "failed" then .errorMarker
  else if jsIncludes logContent "Registered tunnel connection" then .successMarker
  else .noMarker

/-- The `for (attempt = 1; attempt <= retries; attempt++)` loop of
`verifyTunnels`; `fuel` is the number of remaining iterations
(`retries - attempt + 1`), so recursive calls only happen while
`attempt < retries`. -/
def verifyGo (cfg : VerifyCfg) (env : VerifyEnv) :
    Nat → Nat → Except PError Unit × List VEvent
  | _, 0 => (.ok (), [])
  | attempt, fuel + 1 =>
    let retries := vRetries cfg
    let pre := [VEvent.infoV s!"Waiting for tunnel to initialize (attempt {attempt}/{retries})...",
                VEvent.sleepV (vTimeout cfg)]
    let pidContent := env.pidContent attempt
    if ¬ truthy pidContent then
      let evs := pre ++ [VEvent.warnV "PID file not found yet."]
      if attempt < retries then
        let rest := verifyGo cfg env (attempt + 1) fuel
        (rest.1, evs ++ [VEvent.sleepV (vDelay cfg)] ++ rest.2)
      else
        (.error ⟨"Tunnel failed to start - PID file not found", 1, ""⟩, evs)
    else
      let pid := jsParseInt (jsTrim (pidContent.getD ""))
      let evs1 := pre ++ [VEvent.infoV s!"Found PID: {renderPid pid}", VEvent.probe pid]
      if ¬ env.alive attempt then
        let evs2 := evs1 ++ [VEvent.warnV s!"Process {renderPid pid} is not running yet."]
        let lastLogContent := (env.logContent attempt).getD ""
        if attempt < retries then
          let rest := verifyGo cfg env (attempt + 1) fuel
          (rest.1, evs2 ++ [VEvent.sleepV (vDelay cfg)] ++ rest.2)
        else
          let diag :=
            if lastLogContent ≠ "" then
              [VEvent.errorV "Last logs:", VEvent.errorV (lastLines 20 lastLogContent)]
            else []
          (.error ⟨"Cloudflared process died after start", 1, ""⟩, evs2 ++ diag)
      else
        let evs2 := evs1 ++ [VEvent.successV s!"Process is running (PID: {renderPid pid})"]
        let lastLogContent := (env.logContent attempt).getD ""
        match inspectLogMarkers lastLogContent with
        | .errorMarker =>
          (.error ⟨"Tunnel failed to start - check logs for details", 1, lastLogContent⟩,
           evs2 ++ [VEvent.errorV "Errors found in cloudflared logs:", VEvent.errorV lastLogContent])
        | .successMarker =>
          (.ok (), evs2 ++ [VEvent.successV "Tunnel is running successfully!"])
        | .noMarker =>
          if attempt = retries then
            (.ok (), evs2 ++ [VEvent.warnV "Tunnel may still be initializing - check logs for status"])
          else
            let rest := verifyGo cfg env (attempt + 1) fuel
            (rest.1, evs2 ++ [VEvent.sleepV (vDelay cfg)] ++ rest.2)

/-- `verifyTunnels()`: run the bounded loop; the trailing
`logger.info("Full logs available at: ...")` only runs when no
`ProcessError` was thrown. -/
def verifyTunnels (cfg : VerifyCfg) (env : VerifyEnv) :
    Except PError Unit × List VEvent :=
  let rest := verifyGo cfg env 1 (vRetries cfg)
  match rest.1 with
  | .ok _ => (.ok (), rest.2 ++ [VEvent.infoV "Full logs available at the log path"])
  | .error e => (.error e, rest.2)

/-- Number of liveness signal-probes in a verification trace. -/
def probeCount (evs : List VEvent) : Nat :=
  evs.countP (fun ev => match ev with | .probe _ => true | _ => false)

/-! ## Specification-side descriptions used by the theorems -/

/-- Number of invocations of the retried operation in a retry trace. -/
def callCount {ε : Type} (evs : List (REvent ε)) : Nat :=
  evs.countP (fun ev => match ev with | .call _ => true | _ => false)

/-- The event trace the retry contract predicts for a run whose attempts
`attempt, attempt+1, …` all fail except possibly the last of the `gap + 1`
attempts described: after the failure of attempt `k` it records
`onRetry(error, k, delay * backoff^(k-1))` and a sleep of that wait time
before the next invocation. -/
def retryTraceFrom {ε : Type} (opts : RetryOpts) (err : Nat → ε) :
    Nat → Nat → List (REvent ε)
  | attempt, 0 => [.call attempt]
  | attempt, gap + 1 =>
    let waitTime := opts.delay * opts.backoff ^ (attempt - 1)
    .call attempt :: .onRetryEv (err attempt) attempt waitTime ::
      .sleepEv waitTime :: retryTraceFrom opts err (attempt + 1) gap

/-- The value the retry contract predicts when the run ends at attempt `m`:
the result of that attempt, a thrown error propagated unchanged. -/
def retryResult {ε α : Type} (fn : Nat → Except ε α) (m : Nat) :
    Except (Option ε) α :=
  match fn m with
  | .ok a => .ok a
  | .error e => .error (some e)

/-! ## Concrete fixtures used by the witness theorems -/

def stFound : CfState := ⟨[⟨"id9", "t"⟩], [], fun _ => [], 5, ["S1", "S2"]⟩

def stEmpty : CfState := ⟨[], [], fun _ => [], 5, ["S1", "S2"]⟩

def stZones : CfState := ⟨[], [⟨"z1", "example.com"⟩], fun _ => [], 0, []⟩

def stNoZones : CfState := ⟨[], [], fun _ => [], 0, []⟩

def cfgNoZone : CfConfig := ⟨"acc", none, none⟩

def fnW : Nat → Except String Nat :=
  fun k => if k < 3 then .error ("e" ++ toString k) else .ok k

def errW : Nat → String := fun k => "e" ++ toString k

def optsW : RetryOpts := ⟨3, 10, 2⟩

def optsZero : RetryOpts := ⟨0, 10, 2⟩

def svc22 : Service := ⟨"git", "git.example.com", "localhost", "22", none⟩

def svc443 : Service := ⟨"web", "web.example.com", "localhost", "443", none⟩

def svcExplicit : Service := ⟨"db", "db.example.com", "localhost", "443", some "tcp"⟩

def tiNull : TunnelInfo := ⟨"t1", "n", none⟩

def deadEnvW : VerifyEnv :=
  ⟨fun _ => some "1234", fun _ => false, fun _ => some "line1\nline2"⟩

def errLogEnvW : VerifyEnv :=
  ⟨fun _ => some "1234", fun _ => true,
   fun _ => some "Registered tunnel connection\nerror: cert"⟩

def cfgRetry3 : VerifyCfg := { verifyRetries := 3 }

def svcSep : Service := ⟨"web", "h", "localhost", "443", some "://"⟩

/-- Condition of the `ssh` inference branch: SSH port or a name
containing `"ssh"`. -/
def sshCond (svc : Service) : Prop :=
  jsParseInt svc.port = some 22 ∨ jsParseInt svc.port = some 2222 ∨
    jsIncludes (jsToLower svc.name) "ssh" = true

/-- Condition of the `https` inference branch: port 443. -/
def httpsCond (svc : Service) : Prop :=
  jsParseInt svc.port = some 443

/-- Condition of the `http` inference branch: a port on the fixed HTTP
dev-port allow-list. -/
def httpCond (svc : Service) : Prop :=
  (jsParseInt svc.port).any (fun p => p ∈ httpPorts) = true

/-- Condition of the database/cache `tcp` branch: a port on the fixed
database/cache-port allow-list. -/
def tcpCond (svc : Service) : Prop :=
  (jsParseInt svc.port).any (fun p => p ∈ tcpPorts) = true

/-! ## Helper lemmas -/

theorem find?_append_of_none {α : Type} {p : α → Bool} {l1 : List α} (l2 : List α)
    (h : l1.find? p = none) : (l1 ++ l2).find? p = l2.find? p := by
  induction l1 with
  | nil => rfl
  | cons a l ih =>
    cases hp : p a with
    | true =>
      rw [List.find?_cons_of_pos _ hp] at h
      exact absurd h (by simp)
    | false =>
      rw [List.find?_cons_of_neg _ (by simp [hp])] at h
      rw [List.cons_append, List.find?_cons_of_neg _ (by simp [hp])]
      exact ih h

theorem foldl_push_eq_map {α β : Type} (f : α → β) (l : List α) :
    ∀ acc : List β, l.foldl (fun acc t => acc ++ [f t]) acc = acc ++ l.map f := by
  induction l with
  | nil => intro acc; simp
  | cons a l ih => intro acc; simp [ih]

theorem not_sshCond_parts {svc : Service} (h : ¬ sshCond svc) :
    ¬ jsParseInt svc.port = some 22 ∧ ¬ jsParseInt svc.port = some 2222 ∧
      jsIncludes (jsToLower svc.name) "ssh" = false := by
  refine ⟨fun hx => h (Or.inl hx), fun hx => h (Or.inr (Or.inl hx)), ?_⟩
  cases hval : jsIncludes (jsToLower svc.name) "ssh" with
  | true => exact absurd (Or.inr (Or.inr hval)) h
  | false => rfl

theorem runSteps_map_ok (l : List (List WEvent)) :
    runSteps (l.map Except.ok) = .ok l.flatten := by
  induction l with
  | nil => rfl
  | cons a t ih => simp [runSteps, ih, Except.map]

/-! ## Theorems for the claims -/

/-- C1: `getOrCreateTunnel` returns the existing tunnel with a null
(`none`) secret and an untouched provider state when a tunnel of the name
is present; otherwise it creates one carrying the freshly generated secret
(the head of the entropy stream); calling it twice with the same name
yields the same id and a null secret on the second call. -/
theorem c1_getOrCreateTunnel :
    (∀ (st : CfState) (name : String) (tunnel : Tunnel),
      getTunnelByName st name = some tunnel →
      getOrCreateTunnel st name = (⟨tunnel.id, tunnel.name, none⟩, st)) ∧
    (∀ (st : CfState) (name : String), getTunnelByName st name = none →
      getOrCreateTunnel st name = createTunnel st name ∧
      (getOrCreateTunnel st name).1.tunnelSecret = some (st.entropy.headD "")) ∧
    (∀ (st : CfState) (name : String),
      (getOrCreateTunnel ((getOrCreateTunnel st name).2) name).1.id =
        (getOrCreateTunnel st name).1.id ∧
      (getOrCreateTunnel ((getOrCreateTunnel st name).2) name).1.tunnelSecret = none) := by
  refine ⟨?_, ?_, ?_⟩
  · intro st name tunnel h
    simp [getOrCreateTunnel, h]
  · intro st name h
    simp [getOrCreateTunnel, h, createTunnel]
  · intro st name
    cases h : getTunnelByName st name with
    | some t => simp [getOrCreateTunnel, h]
    | none =>
      have h' : st.tunnels.find? (fun t => t.name = name) = none := h
      have h2 : (st.tunnels ++ [(⟨toString st.nextId, name⟩ : Tunnel)]).find?
          (fun t => t.name = name) = some ⟨toString st.nextId, name⟩ := by
        rw [find?_append_of_none _ h']
        simp [List.find?_cons]
      simp [getOrCreateTunnel, getTunnelByName, createTunnel, h, h', h2]

/-- C1 witness: a present tunnel is returned with a null secret and no
state change; on a fresh state, the second call returns the id of the
first call's creation and a null secret. -/
theorem c1_witness :
    getOrCreateTunnel stFound "t" = (⟨"id9", "t", none⟩, stFound) ∧
    ((getOrCreateTunnel ((getOrCreateTunnel stEmpty "t").2) "t").1.id =
        (getOrCreateTunnel stEmpty "t").1.id ∧
      (getOrCreateTunnel ((getOrCreateTunnel stEmpty "t").2) "t").1.tunnelSecret = none) :=
  ⟨c1_getOrCreateTunnel.1 stFound "t" ⟨"id9", "t"⟩ (by decide),
   c1_getOrCreateTunnel.2.2 stEmpty "t"⟩

/-- C3 counterexample: a tunnel identity whose secret is the non-null
empty string.  The claim demands `TunnelSecret = ""` (the secret), but the
code's `tunnelInfo.tunnelSecret || token` writes the fallback token `"T"`:
JavaScript `||` tests truthiness, not nullishness. -/
theorem c3_counterexample :
    (credentialsObject cfgNoZone ⟨"t1", "n", some ""⟩ "T").lookup "TunnelSecret" =
        some "T" ∧
      (some "T" : Option String) ≠ some "" := by decide

/-- C3 amended: the credentials object has exactly the keys `AccountTag`,
`TunnelSecret`, `TunnelID`; `TunnelSecret` equals the identity's secret
when that secret is non-null and non-empty, and equals the fallback token
when the secret is null or empty. -/
theorem c3_createCredentialsFile :
    ∀ (cfg : CfConfig) (ti : TunnelInfo) (token : String),
      ((credentialsObject cfg ti token).map Prod.fst =
        ["AccountTag", "TunnelSecret", "TunnelID"]) ∧
      (∀ s, ti.tunnelSecret = some s → s ≠ "" →
        (credentialsObject cfg ti token).lookup "TunnelSecret" = some s) ∧
      (ti.tunnelSecret = none →
        (credentialsObject cfg ti token).lookup "TunnelSecret" = some token) ∧
      (ti.tunnelSecret = some "" →
        (credentialsObject cfg ti token).lookup "TunnelSecret" = some token) ∧
      ((credentialsObject cfg ti token).lookup "AccountTag" = some cfg.accountId) ∧
      ((credentialsObject cfg ti token).lookup "TunnelID" = some ti.id) := by
  intro cfg ti token
  refine ⟨rfl, ?_, ?_, ?_, ?_, ?_⟩
  · intro s hs hne
    simp [credentialsObject, List.lookup, jsOr, truthy, hs, hne]
  · intro hs
    simp [credentialsObject, List.lookup, jsOr, truthy, hs]
  · intro hs
    simp [credentialsObject, List.lookup, jsOr, truthy, hs]
  · simp [credentialsObject, List.lookup]
  · simp [credentialsObject, List.lookup]

/-- C3 witness: with a null secret and fallback token `"T"`, the written
`TunnelSecret` is `"T"`. -/
theorem c3_witness :
    (credentialsObject cfgNoZone tiNull "T").lookup "TunnelSecret" = some "T" :=
  (c3_createCredentialsFile cfgNoZone tiNull "T").2.2.1 rfl

/-- C4: for every non-empty service list the generated ingress is one rule
per service, in input order, followed by exactly one catch-all rule
mapping to `http_status:404`, which is always last. -/
theorem c4_ingressShape :
    ∀ services : List Service, services ≠ [] →
      mkIngress services = services.map serviceRule ++ [catchAllRule] ∧
      (mkIngress services).getLast? = some catchAllRule ∧
      (mkIngress services).take services.length = services.map serviceRule ∧
      (mkIngress services).countP (fun r => r = catchAllRule) = 1 ∧
      catchAllRule.service = "http_status:404" := by
  intro services _
  have hfold : mkIngress services = services.map serviceRule ++ [catchAllRule] := by
    unfold mkIngress
    rw [foldl_push_eq_map]
    simp
  refine ⟨hfold, ?_, ?_, ?_, rfl⟩
  · rw [hfold]
    exact List.getLast?_concat _
  · rw [hfold]
    have hlen : (services.map serviceRule).length = services.length := by simp
    rw [← hlen, List.take_left]
  · rw [hfold, List.countP_append]
    have h0 : (services.map serviceRule).countP (fun r => r = catchAllRule) = 0 := by
      rw [List.countP_eq_zero]
      intro r hr
      rcases List.mem_map.mp hr with ⟨s, _, rfl⟩
      simp [serviceRule, catchAllRule]
    rw [h0]
    simp [catchAllRule]

/-- C4 witness: a one-service list yields its rule followed by the
catch-all, which is last. -/
theorem c4_witness :
    mkIngress [svc22] = [serviceRule svc22, catchAllRule] ∧
    (mkIngress [svc22]).getLast? = some catchAllRule := by
  have h := c4_ingressShape [svc22] (by decide)
  exact ⟨by simpa using h.1, h.2.1⟩

/-- C10: with a non-positive `maxAttempts` the attempt loop is never
entered: the operation is not invoked (empty trace) and the uninitialised
`lastError` — `undefined`, modelled `none` — is thrown instead of an
`Error`. -/
theorem c10_retryNonPositive :
    ∀ (opts : RetryOpts) (fn : Nat → Except String Nat), opts.maxAttempts < 1 →
      retry fn opts = (.error none, []) := by
  intro opts fn h
  have h0 : opts.maxAttempts.toNat = 0 := Int.toNat_of_nonpos (by omega)
  simp [retry, h0, retryGo]

/-- C10 witness: `maxAttempts = 0` invokes nothing and throws `undefined`. -/
theorem c10_witness : retry fnW optsZero = (.error none, []) :=
  c10_retryNonPositive optsZero fnW (by decide)

/-- C5 counterexample: the service declares the protocol `"://"` — an
explicitly declared protocol — yet the built URL uses the scheme inferred
from port 443, because the declared value normalizes to the empty string
and the code then falls back to inference. -/
theorem c5_counterexample :
    svcSep.protocol = some "://" ∧
    normalizeProtocol svcSep.protocol = "" ∧
    inferProtocol svcSep = "https" ∧
    buildServiceUrl svcSep = "https://localhost:443" := by decide

/-- C5 amended: without a declared protocol the scheme is inferred —
`ssh` for ports 22/2222 or a name containing `"ssh"` (case-insensitively),
else `https` for port 443, else `http` for the HTTP dev-port allow-list,
else `tcp` (database/cache allow-list or default); a declared protocol is
used (after trimming, lower-casing and stripping `"://"`) whenever it
normalizes to a non-empty string, and falls back to inference when it
normalizes to the empty string. -/
theorem c5_protocolInference :
    (∀ svc : Service, svc.protocol = none →
      buildServiceUrl svc = s!"{inferProtocol svc}://{svc.ip}:{svc.port}") ∧
    (∀ svc : Service, sshCond svc → inferProtocol svc = "ssh") ∧
    (∀ svc : Service, ¬ sshCond svc → httpsCond svc → inferProtocol svc = "https") ∧
    (∀ svc : Service, ¬ sshCond svc → ¬ httpsCond svc → httpCond svc →
      inferProtocol svc = "http") ∧
    (∀ svc : Service, ¬ sshCond svc → ¬ httpsCond svc → ¬ httpCond svc → tcpCond svc →
      inferProtocol svc = "tcp") ∧
    (∀ svc : Service, ¬ sshCond svc → ¬ httpsCond svc → ¬ httpCond svc →
      inferProtocol svc = "tcp") ∧
    (∀ (svc : Service) (p : String), svc.protocol = some p →
      normalizeProtocol (some p) ≠ "" →
      buildServiceUrl svc = s!"{normalizeProtocol (some p)}://{svc.ip}:{svc.port}") ∧
    (∀ (svc : Service) (p : String), svc.protocol = some p →
      normalizeProtocol (some p) = "" →
      buildServiceUrl svc = s!"{inferProtocol svc}://{svc.ip}:{svc.port}") := by
  refine ⟨?_, ?_, ?_, ?_, ?_, ?_, ?_, ?_⟩
  · intro svc h
    simp [buildServiceUrl, h, normalizeProtocol, truthy]
  · intro svc h
    rcases h with h | h | h <;> simp [inferProtocol, h]
  · intro svc h1 h2
    obtain ⟨h22, h2222, hssh⟩ := not_sshCond_parts h1
    have hb : jsParseInt svc.port = some 443 := h2
    simp [inferProtocol, h22, h2222, hssh, hb]
  · intro svc h1 h2 h3
    obtain ⟨h22, h2222, hssh⟩ := not_sshCond_parts h1
    have hb : ¬ jsParseInt svc.port = some 443 := h2
    have hc : (jsParseInt svc.port).any (fun p => p ∈ httpPorts) = true := h3
    simp [inferProtocol, h22, h2222, hssh, hb, hc]
  · intro svc h1 h2 h3 h4
    obtain ⟨h22, h2222, hssh⟩ := not_sshCond_parts h1
    have hb : ¬ jsParseInt svc.port = some 443 := h2
    have hc : ¬ (jsParseInt svc.port).any (fun p => p ∈ httpPorts) = true := h3
    have hd : (jsParseInt svc.port).any (fun p => p ∈ tcpPorts) = true := h4
    simp [inferProtocol, h22, h2222, hssh, hb, hc, hd]
  · intro svc h1 h2 h3
    obtain ⟨h22, h2222, hssh⟩ := not_sshCond_parts h1
    have hb : ¬ jsParseInt svc.port = some 443 := h2
    have hc : ¬ (jsParseInt svc.port).any (fun p => p ∈ httpPorts) = true := h3
    by_cases h4 : (jsParseInt svc.port).any (fun p => p ∈ tcpPorts) = true <;>
      simp [inferProtocol, h22, h2222, hssh, hb, hc, h4]
  · intro svc p hp hne
    simp [buildServiceUrl, hp, hne]
  · intro svc p hp he
    simp [buildServiceUrl, hp, he]

/-- C5 witness: ports 22 and 443 without declared protocol infer `ssh`
and `https`; an explicit `tcp` on port 443 overrides inference. -/
theorem c5_witness :
    buildServiceUrl svc22 = "ssh://localhost:22" ∧
    buildServiceUrl svc443 = "https://localhost:443" ∧
    buildServiceUrl svcExplicit = "tcp://localhost:443" := by
  refine ⟨?_, ?_, ?_⟩
  · rw [c5_protocolInference.1 svc22 rfl]
    decide
  · rw [c5_protocolInference.1 svc443 rfl]
    decide
  · rw [c5_protocolInference.2.2.2.2.2.2.1 svcExplicit "tcp" rfl (by decide)]
    decide

/-- C6: zone resolution prefers a configured zone id (returned without
consulting the provider), else a configured zone name matched exactly
against the provider's zone list, else the last two labels of the domain
as a guessed root zone; `api.example.com` with no explicit configuration
resolves to the id of a listed `example.com` zone, and when resolution
comes up absent the DNS-record caller throws a 404 `CloudflareApiError`. -/
theorem c6_zoneResolution :
    (∀ (cfg : CfConfig) (st : CfState) (domain : String),
      truthy cfg.zoneId = true →
      getZoneIdByDomain cfg st domain = (some (cfg.zoneId.getD ""), false)) ∧
    (∀ (cfg : CfConfig) (st : CfState) (domain : String),
      truthy cfg.zoneId = false → truthy cfg.zoneName = true →
      getZoneIdByDomain cfg st domain =
        ((st.zones.find? (fun z => z.name = cfg.zoneName.getD "")).map Zone.id, true)) ∧
    (∀ (cfg : CfConfig) (st : CfState) (domain : String),
      truthy cfg.zoneId = false → truthy cfg.zoneName = false →
      getZoneIdByDomain cfg st domain =
        ((st.zones.find? (fun z => z.name = lastTwoLabels domain)).map Zone.id, true)) ∧
    (∀ (accountId : String) (st : CfState) (zone : Zone),
      st.zones.find? (fun z => z.name = "example.com") = some zone →
      (getZoneIdByDomain ⟨accountId, none, none⟩ st "api.example.com").1 = some zone.id) ∧
    (∀ (cfg : CfConfig) (st : CfState) (hostname tunnelId : String),
      (getZoneIdByDomain cfg st (lastTwoLabels hostname)).1 = none →
      getOrCreateDnsRecord cfg st hostname tunnelId =
        .error ⟨s!"Zone not found for domain: {lastTwoLabels hostname}", 404⟩) := by
  refine ⟨?_, ?_, ?_, ?_, ?_⟩
  · intro cfg st domain h
    simp [getZoneIdByDomain, h]
  · intro cfg st domain h1 h2
    simp [getZoneIdByDomain, h1, h2]
  · intro cfg st domain h1 h2
    simp [getZoneIdByDomain, h1, h2]
  · intro accountId st zone h
    have hd : lastTwoLabels "api.example.com" = "example.com" := by decide
    simp [getZoneIdByDomain, truthy, hd, h]
  · intro cfg st hostname tunnelId h
    unfold getOrCreateDnsRecord
    rw [h]

/-- C6 witness: `api.example.com` resolves against a zone list containing
`example.com`; with an empty zone list resolution is absent and
`getOrCreateDnsRecord` throws the 404 error. -/
theorem c6_witness :
    (getZoneIdByDomain cfgNoZone stZones "api.example.com").1 = some "z1" ∧
    getOrCreateDnsRecord cfgNoZone stNoZones "api.example.com" "tid" =
      .error ⟨"Zone not found for domain: example.com", 404⟩ := by
  constructor
  · exact c6_zoneResolution.2.2.2.1 "acc" stZones ⟨"z1", "example.com"⟩ (by decide)
  · have h := c6_zoneResolution.2.2.2.2 cfgNoZone stNoZones "api.example.com" "tid"
      (by decide)
    rw [h]
    have hd : lastTwoLabels "api.example.com" = "example.com" := by decide
    rw [hd]
    rfl

/-- C7: every error of the DNS reconciliation call is caught inside
`setupDnsRecord` and becomes two warnings; the workflow tail is therefore
infallible — whatever the per-service DNS outcomes, every service's DNS
step runs, the config is generated and the daemon is launched, and no DNS
error reaches the caller. -/
theorem c7_dnsNonFatal :
    (∀ (hostname : String) (e : CfApiError),
      setupDnsRecord hostname (.error e) =
        [WEvent.infoW s!"Setting up DNS record for {hostname}...",
         WEvent.warnW s!"Failed to setup DNS record: {e.message}",
         WEvent.warnW "You may need to manually configure DNS records in Cloudflare dashboard"]) ∧
    (∀ (services : List Service) (dns : Nat → Except CfApiError DnsRecord),
      executeFromDns services dns =
        .ok (dnsLoop services dns ++ [WEvent.configGenerated, WEvent.daemonStarted])) ∧
    (∀ (services : List Service) (dns : Nat → Except CfApiError DnsRecord)
        (svc : Service), svc ∈ services →
      WEvent.infoW s!"Setting up DNS record for {svc.hostname}..." ∈
        dnsLoop services dns) := by
  refine ⟨?_, ?_, ?_⟩
  · intro hostname e
    rfl
  · intro services dns
    simp [executeFromDns, runSteps, Except.map]
  · intro services
    induction services with
    | nil => intro dns svc h; cases h
    | cons a t ih =>
      intro dns svc h
      rcases List.mem_cons.mp h with rfl | ht
      · exact List.mem_append_left _ (List.mem_cons_self _ _)
      · exact List.mem_append_right _ (ih (fun i => dns (i + 1)) svc ht)

theorem callCount_retryTraceFrom {ε : Type} (opts : RetryOpts) (err : Nat → ε) :
    ∀ (gap attempt : Nat),
      callCount (retryTraceFrom opts err attempt gap) = gap + 1 := by
  intro gap
  induction gap with
  | zero =>
    intro attempt
    simp [retryTraceFrom, callCount, List.countP_cons, List.countP_nil]
  | succ g ih =>
    intro attempt
    simp only [retryTraceFrom, callCount] at ih ⊢
    simp [List.countP_cons, ih (attempt + 1)]

theorem retryGo_spec {ε α : Type} (opts : RetryOpts) (fn : Nat → Except ε α)
    (err : Nat → ε) (m : Nat)
    (hend : (fn m).isOk = true ∨ m = opts.maxAttempts.toNat)
    (hmax : m ≤ opts.maxAttempts.toNat)
    (hfail : ∀ k, 1 ≤ k → k < m → fn k = .error (err k)) :
    ∀ (fuel attempt : Nat) (lastError : Option ε),
      attempt + fuel = opts.maxAttempts.toNat + 1 →
      1 ≤ attempt → attempt ≤ m →
      retryGo opts fn lastError attempt fuel =
        (retryResult fn m, retryTraceFrom opts err attempt (m - attempt)) := by
  intro fuel
  induction fuel with
  | zero =>
    intro attempt lastError hsum h1 ham
    exfalso
    omega
  | succ f ih =>
    intro attempt lastError hsum h1 ham
    by_cases hm : attempt = m
    · subst hm
      cases hfm : fn attempt with
      | ok a =>
        simp [retryGo, hfm, retryResult, Nat.sub_self, retryTraceFrom]
      | error e =>
        have hmeq : attempt = opts.maxAttempts.toNat := by
          rcases hend with hok | heq
          · rw [hfm] at hok
            simp [Except.isOk, Except.toBool] at hok
          · exact heq
        have hInt : (attempt : Int) = opts.maxAttempts := by omega
        simp [retryGo, hfm, hInt, retryResult, Nat.sub_self, retryTraceFrom]
    · have hlt : attempt < m := lt_of_le_of_ne ham hm
      have hfa : fn attempt = .error (err attempt) := hfail attempt h1 hlt
      have hne : ¬ ((attempt : Int) = opts.maxAttempts) := by omega
      have hrec := ih (attempt + 1) (some (err attempt)) (by omega) (by omega)
        (by omega)
      have hgap : m - attempt = (m - (attempt + 1)) + 1 := by omega
      simp only [retryGo, hfa, if_neg hne, hrec, hgap, retryTraceFrom]

/-- C2: for `maxAttempts ≥ 1` the retry loop runs at most `maxAttempts`
invocations; a run whose first `m - 1` attempts fail and which ends at
attempt `m` (a success, or `m = maxAttempts`) produces exactly the
contract trace — after the k-th failure, `onRetry(error, k,
delay * backoff^(k-1))` and a sleep of that wait time precede attempt
`k + 1` — and, on exhaustion, throws the last attempt's error unchanged. -/
theorem c2_retryContract {ε α : Type} (opts : RetryOpts) (fn : Nat → Except ε α)
    (err : Nat → ε) (m : Nat)
    (h1 : 1 ≤ m) (h2 : (m : Int) ≤ opts.maxAttempts)
    (hfail : ∀ k, 1 ≤ k → k < m → fn k = .error (err k))
    (hend : (fn m).isOk = true ∨ (m : Int) = opts.maxAttempts) :
    retry fn opts = (retryResult fn m, retryTraceFrom opts err 1 (m - 1)) ∧
      callCount (retryTraceFrom opts err 1 (m - 1)) = m := by
  have hmax : m ≤ opts.maxAttempts.toNat := by omega
  have hend' : (fn m).isOk = true ∨ m = opts.maxAttempts.toNat := by
    rcases hend with h | h
    · exact Or.inl h
    · right
      omega
  constructor
  · have hspec := retryGo_spec opts fn err m hend' hmax hfail
      opts.maxAttempts.toNat 1 none (by omega) (by omega) h1
    simpa [retry] using hspec
  · rw [callCount_retryTraceFrom]
    omega

/-- C2 witness: three attempts, the first two failing: the trace is
`call 1, onRetry(e1,1,10), sleep 10, call 2, onRetry(e2,2,20), sleep 20,
call 3` and the third attempt's result is returned. -/
theorem c2_witness :
    retry fnW optsW = (retryResult fnW 3, retryTraceFrom optsW errW 1 2) ∧
      callCount (retryTraceFrom optsW errW 1 2) = 3 :=
  c2_retryContract optsW fnW errW 3 (by decide) (by decide)
    (by
      intro k hk1 hk2
      interval_cases k <;> rfl)
    (Or.inl (by decide))

theorem probeCount_append (a b : List VEvent) :
    probeCount (a ++ b) = probeCount a + probeCount b := by
  simp [probeCount, List.countP_append]

theorem verifyGo_allDead (cfg : VerifyCfg) (env : VerifyEnv)
    (hpid : ∀ k, truthy (env.pidContent k) = true)
    (halive : ∀ k, env.alive k = false) :
    ∀ (fuel attempt : Nat), 1 ≤ fuel → attempt + fuel = vRetries cfg + 1 →
      (verifyGo cfg env attempt fuel).1 =
          .error ⟨"Cloudflared process died after start", 1, ""⟩ ∧
        probeCount (verifyGo cfg env attempt fuel).2 = fuel ∧
        (((env.logContent (vRetries cfg)).getD "" ≠ "") →
          VEvent.errorV (lastLines 20 ((env.logContent (vRetries cfg)).getD ""))
            ∈ (verifyGo cfg env attempt fuel).2) := by
  intro fuel
  induction fuel with
  | zero =>
    intro attempt h0
    exact absurd h0 (by omega)
  | succ f ih =>
    intro attempt _ hsum
    by_cases hf0 : f = 0
    · subst hf0
      have hatt : attempt = vRetries cfg := by omega
      subst hatt
      have hnl : ¬ (vRetries cfg < vRetries cfg) := by omega
      refine ⟨?_, ?_, ?_⟩
      · simp [verifyGo, hpid (vRetries cfg), halive (vRetries cfg), hnl]
      · by_cases hne : (env.logContent (vRetries cfg)).getD "" ≠ "" <;>
          simp [verifyGo, hpid (vRetries cfg), halive (vRetries cfg), hnl, hne,
            probeCount, List.countP_append, List.countP_cons]
      · intro hne
        simp [verifyGo, hpid (vRetries cfg), halive (vRetries cfg), hnl, hne,
          List.mem_append]
    · have hlt : attempt < vRetries cfg := by omega
      obtain ⟨ih1, ih2, ih3⟩ := ih (attempt + 1) (by omega) (by omega)
      refine ⟨?_, ?_, ?_⟩
      · simpa [verifyGo, hpid attempt, halive attempt, hlt] using ih1
      · have ih2' : (verifyGo cfg env (attempt + 1) f).2.countP
            (fun ev => match ev with | .probe _ => true | _ => false) = f := ih2
        simp [verifyGo, hpid attempt, halive attempt, hlt, probeCount,
          List.countP_append, List.countP_cons, ih2']
      · intro hne
        have hmem := ih3 hne
        simp [verifyGo, hpid attempt, halive attempt, hlt, List.mem_append, hmem]

/-- C8: with a PID file naming a process that is never alive, every
attempt before the last retries instead of failing; after the attempt
budget (`vRetries`) is exhausted — exactly that many liveness probes —
`verifyTunnels` throws the `ProcessError` "Cloudflared process died after
start" and surfaces the last 20 lines of the (non-empty, marker-free)
daemon log as diagnostics. -/
theorem c8_verifyDeadProcess (cfg : VerifyCfg) (env : VerifyEnv)
    (hpid : ∀ k, truthy (env.pidContent k) = true)
    (halive : ∀ k, env.alive k = false)
    (_hmark : ∀ k, inspectLogMarkers ((env.logContent k).getD "") = .noMarker)
    (hne : (env.logContent (vRetries cfg)).getD "" ≠ "") :
    (verifyTunnels cfg env).1 =
        .error ⟨"Cloudflared process died after start", 1, ""⟩ ∧
      probeCount (verifyTunnels cfg env).2 = vRetries cfg ∧
      VEvent.errorV (lastLines 20 ((env.logContent (vRetries cfg)).getD ""))
        ∈ (verifyTunnels cfg env).2 := by
  have h1R : 1 ≤ vRetries cfg := by unfold vRetries; omega
  obtain ⟨h1, h2, h3⟩ := verifyGo_allDead cfg env hpid halive (vRetries cfg) 1
    h1R (by omega)
  refine ⟨?_, ?_, ?_⟩
  · simp [verifyTunnels, h1]
  · simpa [verifyTunnels, h1] using h2
  · simpa [verifyTunnels, h1] using h3 hne

/-- C8 witness: three retries against a dead process and a marker-free
two-line log: three probes, the died `ProcessError`, and the last 20 log
lines surfaced. -/
theorem c8_witness :
    (verifyTunnels cfgRetry3 deadEnvW).1 =
        .error ⟨"Cloudflared process died after start", 1, ""⟩ ∧
      probeCount (verifyTunnels cfgRetry3 deadEnvW).2 = vRetries cfgRetry3 ∧
      VEvent.errorV (lastLines 20 ((deadEnvW.logContent (vRetries cfgRetry3)).getD ""))
        ∈ (verifyTunnels cfgRetry3 deadEnvW).2 :=
  c8_verifyDeadProcess cfgRetry3 deadEnvW
    (fun _ => (by decide : truthy (some "1234") = true)) (fun _ => rfl)
    (fun _ => (by decide : inspectLogMarkers
      ((some "line1\nline2" : Option String).getD "") = .noMarker))
    (by decide)

/-- C9: the error-marker test precedes the success-marker test: any log
containing `"error"` or `"failed"` classifies as an error marker even when
the success marker is also present, the success branch is reachable only
for logs containing neither substring, and on a first attempt with a live
process and such a log `verifyTunnels` throws the check-logs
`ProcessError` immediately — after a single probe, whatever the retry
budget. -/
theorem c9_errorMarkerPrecedence :
    (∀ logContent : String,
      (jsIncludes logContent "error" = true ∨ jsIncludes logContent "failed" = true) →
      inspectLogMarkers logContent = .errorMarker) ∧
    (∀ logContent : String, inspectLogMarkers logContent = .successMarker →
      jsIncludes logContent "error" = false ∧ jsIncludes logContent "failed" = false) ∧
    (∀ (cfg : VerifyCfg) (env : VerifyEnv),
      truthy (env.pidContent 1) = true → env.alive 1 = true →
      (jsIncludes ((env.logContent 1).getD "") "error" = true ∨
        jsIncludes ((env.logContent 1).getD "") "failed" = true) →
      (verifyTunnels cfg env).1 =
          .error ⟨"Tunnel failed to start - check logs for details", 1,
            (env.logContent 1).getD ""⟩ ∧
        probeCount (verifyTunnels cfg env).2 = 1) := by
  refine ⟨?_, ?_, ?_⟩
  · intro l h
    rcases h with h | h <;> simp [inspectLogMarkers, h]
  · intro l h
    by_cases he : jsIncludes l "error" = true
    · simp [inspectLogMarkers, he] at h
    · have he' : jsIncludes l "error" = false := by simpa using he
      by_cases hf : jsIncludes l "failed" = true
      · simp [inspectLogMarkers, he', hf] at h
      · have hf' : jsIncludes l "failed" = false := by simpa using hf
        exact ⟨he', hf'⟩
  · intro cfg env hpid halive hinc
    have hm : inspectLogMarkers ((env.logContent 1).getD "") = .errorMarker := by
      rcases hinc with h | h <;> simp [inspectLogMarkers, h]
    have h1R : 1 ≤ vRetries cfg := by unfold vRetries; omega
    have hR : vRetries cfg = (vRetries cfg - 1) + 1 := by omega
    constructor
    · simp only [verifyTunnels]
      rw [hR]
      simp [verifyGo, hpid, halive, hm]
    · simp only [verifyTunnels]
      rw [hR]
      simp [verifyGo, hpid, halive, hm, probeCount, List.countP_append,
        List.countP_cons]

/-- C9 witness: a live process whose log holds both the success marker and
an `"error"` line: the first attempt throws the check-logs `ProcessError`
despite the success marker. -/
theorem c9_witness :
    (verifyTunnels cfgRetry3 errLogEnvW).1 =
        .error ⟨"Tunnel failed to start - check logs for details", 1,
          (errLogEnvW.logContent 1).getD ""⟩ ∧
      probeCount (verifyTunnels cfgRetry3 errLogEnvW).2 = 1 :=
  c9_errorMarkerPrecedence.2.2 cfgRetry3 errLogEnvW (by decide) rfl
    (Or.inl (by decide))

end RCT